import Mathlib

/-
Verification development for otter-sea/sentilogging.

Source files embedded:
  * src/sentilogging/config.py   — the Dynaconf settings object
  * src/sentilogging/get_scene.py — class Sentinel: __init__, api,
    coords_to_polygon, initial_keywords (a @staticmethod that still names its
    first parameter self), search_products.

Modelling conventions:
  * Python datetimes and timedeltas are measured in whole days as Int;
    datetime.utcnow() is a parameter `now`, and successive utcnow() calls in
    one body are modelled as the same instant.
  * Coordinates (Python floats) are modelled as Rat: the embedded code only
    pairs, zips and counts them, it never does float arithmetic on them.
  * Fallible Python code returns Except PyError; file writes are returned as
    explicit FileWrite values.
  * get_scene.py binds at module scope only its imports and the class itself;
    `global logger` (lines 31 and 48) declares a name that is never assigned,
    and the names cloud_percent_accept (line 130), lat_list and lon_list
    (line 164) and GeoJSON (line 85) are bound nowhere, so reading any of
    them raises NameError.  This is captured by moduleBinds below.
-/

namespace Sentilogging

/-- The Python errors raised by the embedded code. -/
inductive PyError where
  | nameError (n : String)
  | attributeError (attr : String)
  | valueError (msg : String)
  | typeError (msg : String)
  | geosError (msg : String)
  deriving DecidableEq, Repr

/-- True exactly on ValueError: the class the spec calls a validation error
(and also the class of the query-too-long error of line 136). -/
def PyError.isValueErr : PyError → Bool
  | .valueError _ => true
  | _ => false

/-- Whether an Except computation returned normally. -/
def isOk {α : Type} : Except PyError α → Bool
  | .ok _ => true
  | .error _ => false

/-- config.py: the Dynaconf settings object, restricted to the three fields
get_scene.py reads (settings.path.base, settings.sentinel.username,
settings.sentinel.password). -/
structure Settings where
  path_base : String
  sentinel_username : String
  sentinel_password : String
  deriving DecidableEq, Repr

/-- The instance attributes assigned by Sentinel.__init__
(get_scene.py lines 32–38). -/
structure Sentinel where
  ref_datetime : Int
  days_backwards : Int
  dest_dir : String
  id_execution : Option String
  count_days_buffer : Int
  user : String
  password : String
  deriving DecidableEq, Repr

/-- get_scene.py lines 23–38: Sentinel.__init__.  timedelta(days=d) is
modelled in whole days, so count_days_buffer stores days_backwards itself. -/
def Sentinel.init (settings : Settings) (ref_datetime : Int)
    (days_backwards : Int := 30) (id_execution : Option String := none)
    (dest_dir : String := settings.path_base)
    (api_user : String := settings.sentinel_username)
    (api_password : String := settings.sentinel_password) : Sentinel :=
  { ref_datetime := ref_datetime
    days_backwards := days_backwards
    dest_dir := dest_dir
    id_execution := id_execution
    count_days_buffer := days_backwards
    user := api_user
    password := api_password }

/-- Names bound at module scope of get_scene.py: the imports (lines 1–7) and
the class statement (line 10).  Nothing else is ever assigned at module level:
in particular logger, cloud_percent_accept, lat_list, lon_list and GeoJSON are
absent. -/
def moduleNames : List String :=
  ["sentinel", "gpd", "OrderedDict", "Polygon", "datetime", "timedelta",
   "settings", "Sentinel"]

/-- Whether a bare name read inside a method of get_scene.py resolves at
module scope. -/
def moduleBinds (n : String) : Bool := moduleNames.contains n

/-- A polygon geometry as shapely builds it: either empty (from an empty
coordinate sequence) or a single closed exterior ring. -/
inductive Geometry where
  | emptyPolygon
  | polygon (ring : List (Rat × Rat))
  deriving DecidableEq, Repr

/-- shapely closes a ring by appending the first coordinate when the sequence
does not already end with it. -/
def closeRing (l : List (Rat × Rat)) : List (Rat × Rat) :=
  match l with
  | [] => []
  | p :: _ => if l.getLast? = some p then l else l ++ [p]

/-- shapely.geometry.Polygon applied to a coordinate sequence: an empty
sequence gives an empty polygon; one or two coordinates raise
ValueError("A LinearRing must have at least 3 coordinate tuples"); otherwise
shapely closes the ring (closeRing) and hands it to GEOS, which requires a
LinearRing of 0 or at least 4 points — so a three-coordinate input whose
first and last points already coincide (a closed ring of only 3 points) is
rejected with "Invalid number of points in LinearRing found 3".  Every other
input of 3 or more coordinates closes to a ring of at least 4 points, stored
in the given order with no re-orientation or simplification. -/
def shapelyPolygon (coords : List (Rat × Rat)) : Except PyError Geometry :=
  if coords.isEmpty then .ok .emptyPolygon
  else if coords.length < 3 then
    .error (.valueError "A LinearRing must have at least 3 coordinate tuples")
  else if coords.length = 3 ∧ coords.head? = coords.getLast? then
    .error (.geosError "Invalid number of points in LinearRing found 3 - must be 0 or >= 4")
  else .ok (.polygon (closeRing coords))

/-- The one-row geopandas GeoDataFrame built on line 76. -/
structure GeoDataFrame where
  index : List Nat
  crs : String
  geometry : List Geometry
  deriving DecidableEq, Repr

/-- A file written by GeoDataFrame.to_file. -/
structure FileWrite where
  filename : String
  driver : String
  content : GeoDataFrame
  deriving DecidableEq, Repr

/-- geopandas GeoDataFrame.to_file: writes the frame to disk and returns
None.  Modelled as the pair of the Python return value (always none) and the
write effect. -/
def GeoDataFrame.to_file (gdf : GeoDataFrame) (filename driver : String) :
    Option GeoDataFrame × FileWrite :=
  (none, { filename := filename, driver := driver, content := gdf })

/-- get_scene.py lines 55–81: Sentinel.coords_to_polygon.  zip truncates to
the shorter input (Python zip), pairing as (longitude, latitude); no length
or point-count validation of its own is performed.  The value returned to the
caller is geojson_poly, i.e. the return value of GeoDataFrame.to_file (line
78), which is Python None; the constructed frame only reaches the world
through the written file. -/
def Sentinel.coords_to_polygon (_self : Sentinel)
    (lat_list lon_list : List Rat) (crs : String := "epsg:4326") :
    Except PyError (Option GeoDataFrame × FileWrite) := do
  let polygon_geom ← shapelyPolygon (lon_list.zip lat_list)
  let polygon : GeoDataFrame := { index := [0], crs := crs, geometry := [polygon_geom] }
  let geojson_poly := polygon.to_file "polygon.geojson" "GeoJSON"
  return geojson_poly

/-- The Python values that flow through initial_keywords and search_products:
None, strings, ints, pairs (tuples), datetimes, timedeltas, string-keyed
dicts, Sentinel instances and bound method objects. -/
inductive PyValue where
  | pynone
  | pystr (s : String)
  | pyint (n : Int)
  | pytuple2 (a b : PyValue)
  | pydatetime (t : Int)
  | pytimedelta (d : Int)
  | pydict (entries : List (String × PyValue))
  | pysentinel (s : Sentinel)
  | pymethod (name : String)

/-- Python `==` against a string literal: only a str with the same text
compares equal; every other value (dicts included) compares unequal. -/
def pyEqStr : PyValue → String → Bool
  | .pystr a, b => a == b
  | _, _ => false

/-- A Python dict with string keys, in insertion order. -/
abbrev Dict := List (String × PyValue)

/-- Assignment d[k] = v: overwrite in place when the key exists, append
otherwise (CPython dict semantics). -/
def dictSet (d : Dict) (k : String) (v : PyValue) : Dict :=
  if d.any (fun kv => kv.1 == k) then
    d.map (fun kv => if kv.1 == k then (k, v) else kv)
  else d ++ [(k, v)]

/-- Unpacking `**es` into a dict literal that already holds `d`: each entry of
es is assigned in order, so later writes win. -/
def dictMerge (d : Dict) (es : Dict) : Dict :=
  es.foldl (fun acc kv => dictSet acc kv.1 kv.2) d

/-- Dict lookup. -/
def dictGet? (d : Dict) (k : String) : Option PyValue :=
  (d.find? (fun kv => kv.1 == k)).map (fun kv => kv.2)

/-- Python attribute access on the values of this program.  A Sentinel
instance exposes the seven attributes set in __init__ plus its methods (as
bound method objects; initial_keywords, a staticmethod, is exposed as a plain
function object).  A bound method object has none of the attributes this
program asks for, so e.g. (self.api).format_query raises AttributeError. -/
def getattr : PyValue → String → Except PyError PyValue
  | .pysentinel s, "ref_datetime" => .ok (.pydatetime s.ref_datetime)
  | .pysentinel s, "days_backwards" => .ok (.pyint s.days_backwards)
  | .pysentinel s, "dest_dir" => .ok (.pystr s.dest_dir)
  | .pysentinel s, "id_execution" => .ok (s.id_execution.elim .pynone .pystr)
  | .pysentinel s, "count_days_buffer" => .ok (.pytimedelta s.count_days_buffer)
  | .pysentinel s, "user" => .ok (.pystr s.user)
  | .pysentinel s, "password" => .ok (.pystr s.password)
  | .pysentinel _, "api" => .ok (.pymethod "api")
  | .pysentinel _, "coords_to_polygon" => .ok (.pymethod "coords_to_polygon")
  | .pysentinel _, "search_products" => .ok (.pymethod "search_products")
  | _, attr => .error (.attributeError attr)

/-- Python binary `-` on the values in play: only datetime − timedelta occurs
in the source (line 122). -/
def pySub : PyValue → PyValue → Except PyError PyValue
  | .pydatetime t, .pytimedelta d => .ok (.pydatetime (t - d))
  | .pyint a, .pyint b => .ok (.pyint (a - b))
  | _, _ => .error (.typeError "unsupported operand type(s) for -")

/-- `**extra` in a dict literal requires extra to be a mapping. -/
def pyUnpackDict : PyValue → Except PyError Dict
  | .pydict es => .ok es
  | _ => .error (.typeError "argument after ** must be a mapping")

/-- get_scene.py lines 121–127: the keywords dict literal of
initial_keywords.  The source text carries one stray closing parenthesis on
line 123; it is read with the unique balanced repair, the pair
'date': ((datetime.utcnow() - self.count_days_buffer), datetime.utcnow()),
which is also what the docstring and the date-window semantics require.  The
entries are evaluated in order: the 'date' value reads
self.count_days_buffer (AttributeError when self has no such attribute,
e.g. in the shifted call of line 165), and **extra is unpacked last, its
entries overwriting earlier keys. -/
def Sentinel.initial_keywords_base (now : Int)
    (self region sensor data_type extra : PyValue) : Except PyError Dict := do
  let buffer ← getattr self "count_days_buffer"
  let start ← pySub (.pydatetime now) buffer
  let extraEntries ← pyUnpackDict extra
  return dictMerge
    [("area", region),
     ("date", .pytuple2 start (.pydatetime now)),
     ("platformname", sensor),
     ("producttype", data_type),
     ("tileid", .pynone)] extraEntries

/-- get_scene.py lines 129–130: if sensor == 'Sentinel-2' then
keywords.update(cloudcoverpercentage=cloud_percent_accept).  The keyword
argument names cloud_percent_accept, which is bound nowhere in the module
(moduleBinds), not the cloud_coverage parameter; evaluating it raises
NameError before the update happens. -/
def initial_keywords_cloud (sensor : PyValue) (keywords : Dict) :
    Except PyError Dict :=
  if pyEqStr sensor "Sentinel-2" then
    if moduleBinds "cloud_percent_accept" then
      .ok (dictSet keywords "cloudcoverpercentage" .pynone)
    else .error (.nameError "cloud_percent_accept")
  else .ok keywords

/-- get_scene.py lines 83–138: Sentinel.initial_keywords.  Declared
@staticmethod (line 83) yet taking self as its first parameter (line 84), so
callers must (and, on line 165, do) pass a value for self explicitly.  Line
132 reads self.api.format_query: self.api is the api method object — the
call parentheses are missing in the source — and a method object has no
format_query attribute, so this access raises AttributeError whenever it is
reached.  The rest of line 132 and lines 134–137 (the format_query call,
check_query_length, logger.error — logger is itself unbound — and the
too-long ValueError) are consequently dead on every path; see
initial_keywords_always_fails.  Line 138 returns the keywords dict. -/
def Sentinel.initial_keywords (now : Int) (self region : PyValue)
    (sensor : PyValue := .pystr "Sentinel-2")
    (data_type : PyValue := .pynone)
    (cloud_coverage : PyValue := .pytuple2 (.pyint 0) (.pyint 75))
    (extra : PyValue := .pydict []) : Except PyError Dict := do
  let keywords ← Sentinel.initial_keywords_base now self region sensor data_type extra
  let keywords ← initial_keywords_cloud sensor keywords
  let apiAttr ← getattr self "api"
  let _format_query ← getattr apiAttr "format_query"
  return keywords

/-- get_scene.py line 165: keywords = self.initial_keywords(region,
cloud_coverage, extra).  Because initial_keywords is a staticmethod, the
attribute lookup yields the plain function and no receiver is prepended: the
three positional arguments land on the parameters (self, region, sensor), and
data_type, cloud_coverage, extra keep their declared defaults. -/
def Sentinel.initial_keywords_call_in_search (now : Int)
    (region cloud_coverage extra : PyValue) : Except PyError Dict :=
  Sentinel.initial_keywords now region cloud_coverage extra

/-- The sentinelsat SentinelAPI object built by Sentinel.api. -/
structure SentinelAPI where
  user : String
  password : String
  show_progressbars : Bool
  logger : Option PyValue

/-- get_scene.py lines 39–53: Sentinel.api.  Builds a SentinelAPI from the
stored credentials (line 49–51); line 52, api.logger = logger, evaluates the
global name logger, which `global logger` (line 48) declares but nothing ever
assigns, so the read raises NameError — and the assignment would in any case
mutate the local api object, never self. -/
def Sentinel.api (self : Sentinel) : Except PyError SentinelAPI :=
  let api : SentinelAPI :=
    { user := self.user, password := self.password
      show_progressbars := true, logger := none }
  if moduleBinds "logger" then .ok api else .error (.nameError "logger")

/-- get_scene.py lines 140–172: Sentinel.search_products.  Line 164 evaluates
self.coords_to_polygon(lat_list, lon_list); lat_list is neither a parameter,
nor a local, nor a module-scope name (moduleBinds), so evaluating the first
argument raises NameError('lat_list') on every call, and lines 164–172 — the
polygon, the shifted initial_keywords call of line 165, api.query, title
extraction, the 'Were found …' info log (whose logger is also unbound) and
`return products` — never execute.  (The branch below on
moduleBinds "lat_list" is decided once and for all: the name is absent, so
only the NameError arm is live.) -/
def Sentinel.search_products (_self : Sentinel)
    (_cloud_coverage : PyValue := .pytuple2 (.pyint 0) (.pyint 75))
    (_data_type : PyValue := .pynone)
    (_extra : PyValue := .pydict []) : Except PyError Dict :=
  if moduleBinds "lat_list" then .ok [] else .error (.nameError "lat_list")

/-- Sentinel.api with the instance threaded through: the method assigns no
attribute of self (its one assignment, line 52, targets the local api
object), so the instance passes through unchanged. -/
def Sentinel.api_state (self : Sentinel) :
    Except PyError SentinelAPI × Sentinel :=
  (self.api, self)

/-- Sentinel.coords_to_polygon with the instance threaded through: the method
contains no assignment to self. -/
def Sentinel.coords_to_polygon_state (self : Sentinel)
    (lat_list lon_list : List Rat) (crs : String := "epsg:4326") :
    Except PyError (Option GeoDataFrame × FileWrite) × Sentinel :=
  (self.coords_to_polygon lat_list lon_list crs, self)

/-- Sentinel.initial_keywords with its (explicitly passed) self threaded
through: the body contains no attribute assignment to self. -/
def initial_keywords_state (now : Int)
    (self region sensor data_type cloud_coverage extra : PyValue) :
    Except PyError Dict × PyValue :=
  (Sentinel.initial_keywords now self region sensor data_type cloud_coverage extra, self)

/-- Sentinel.search_products with the instance threaded through: the method
contains no assignment to self. -/
def Sentinel.search_products_state (self : Sentinel)
    (cloud_coverage data_type extra : PyValue) :
    Except PyError Dict × Sentinel :=
  (self.search_products cloud_coverage data_type extra, self)

/-- A concrete Sentinel instance: Sentinel.init with ref_datetime 0 and the
declared defaults, over concrete settings. -/
def s0 : Sentinel :=
  Sentinel.init { path_base := "data/", sentinel_username := "user",
                  sentinel_password := "secret" } 0

/-- When the sensor value compares equal to 'Sentinel-2', line 130 evaluates
the unbound name cloud_percent_accept and raises NameError. -/
theorem initial_keywords_cloud_pos (sensor : PyValue) (kw : Dict)
    (hs : pyEqStr sensor "Sentinel-2" = true) :
    initial_keywords_cloud sensor kw = .error (.nameError "cloud_percent_accept") := by
  unfold initial_keywords_cloud
  simp [hs, moduleBinds, moduleNames]

/-- When the sensor value does not compare equal to 'Sentinel-2', lines
129–130 leave the keywords dict untouched. -/
theorem initial_keywords_cloud_neg (sensor : PyValue) (kw : Dict)
    (hs : pyEqStr sensor "Sentinel-2" = false) :
    initial_keywords_cloud sensor kw = .ok kw := by
  unfold initial_keywords_cloud
  simp [hs]

/-- Unfolding initial_keywords on a Sentinel self and a dict extra: the base
dict is built, then the Sentinel-2 branch runs, and then line 132 raises
AttributeError — self.api is the api method object and has no format_query
attribute — so the continuation is the same error whatever the branch
produced. -/
theorem ik_pydict_eq (now : Int) (s : Sentinel)
    (region sensor data_type cc : PyValue) (es : Dict) :
    Sentinel.initial_keywords now (.pysentinel s) region sensor data_type cc (.pydict es)
    = (initial_keywords_cloud sensor
        (dictMerge
          [("area", region),
           ("date", .pytuple2 (.pydatetime (now - s.count_days_buffer)) (.pydatetime now)),
           ("platformname", sensor),
           ("producttype", data_type),
           ("tileid", .pynone)] es)).bind
        (fun _ => .error (.attributeError "format_query")) := rfl

/-- initial_keywords raises on every input — NameError('cloud_percent_accept')
when the sensor value equals 'Sentinel-2', AttributeError('format_query')
otherwise for a Sentinel self with a dict extra, TypeError for a non-dict
extra, AttributeError('count_days_buffer') for a non-Sentinel self — and the
error is never a ValueError, so neither a validation failure nor the
query-too-long failure of line 136 can ever be observed. -/
theorem initial_keywords_always_fails (now : Int)
    (self region sensor data_type cloud_coverage extra : PyValue) :
    ∃ e, Sentinel.initial_keywords now self region sensor data_type cloud_coverage extra
        = .error e ∧ e.isValueErr = false := by
  cases self with
  | pysentinel s =>
    cases extra with
    | pydict es =>
      by_cases hs : pyEqStr sensor "Sentinel-2" = true
      · refine ⟨.nameError "cloud_percent_accept", ?_, rfl⟩
        rw [ik_pydict_eq, initial_keywords_cloud_pos sensor _ hs]
        rfl
      · refine ⟨.attributeError "format_query", ?_, rfl⟩
        rw [ik_pydict_eq,
            initial_keywords_cloud_neg sensor _ (Bool.of_not_eq_true hs)]
        rfl
    | pynone => exact ⟨.typeError "argument after ** must be a mapping", rfl, rfl⟩
    | pystr a => exact ⟨.typeError "argument after ** must be a mapping", rfl, rfl⟩
    | pyint n => exact ⟨.typeError "argument after ** must be a mapping", rfl, rfl⟩
    | pytuple2 a b => exact ⟨.typeError "argument after ** must be a mapping", rfl, rfl⟩
    | pydatetime t => exact ⟨.typeError "argument after ** must be a mapping", rfl, rfl⟩
    | pytimedelta d => exact ⟨.typeError "argument after ** must be a mapping", rfl, rfl⟩
    | pysentinel s2 => exact ⟨.typeError "argument after ** must be a mapping", rfl, rfl⟩
    | pymethod m => exact ⟨.typeError "argument after ** must be a mapping", rfl, rfl⟩
  | pynone => exact ⟨.attributeError "count_days_buffer", rfl, rfl⟩
  | pystr a => exact ⟨.attributeError "count_days_buffer", rfl, rfl⟩
  | pyint n => exact ⟨.attributeError "count_days_buffer", rfl, rfl⟩
  | pytuple2 a b => exact ⟨.attributeError "count_days_buffer", rfl, rfl⟩
  | pydatetime t => exact ⟨.attributeError "count_days_buffer", rfl, rfl⟩
  | pytimedelta d => exact ⟨.attributeError "count_days_buffer", rfl, rfl⟩
  | pydict es => exact ⟨.attributeError "count_days_buffer", rfl, rfl⟩
  | pymethod m => exact ⟨.attributeError "count_days_buffer", rfl, rfl⟩

/-- shapelyPolygon fails exactly on a one- or two-point coordinate sequence
(shapely's own minimum-count ValueError) or on a three-point sequence whose
first and last points coincide (GEOS rejects the resulting 3-point
LinearRing): an empty sequence gives an empty polygon, and every other input
closes to a ring of at least 4 points. -/
theorem shapelyPolygon_isOk_false_iff (l : List (Rat × Rat)) :
    isOk (shapelyPolygon l) = false
      ↔ l.length = 1 ∨ l.length = 2
        ∨ (l.length = 3 ∧ l.head? = l.getLast?) := by
  unfold shapelyPolygon
  by_cases h0 : l.isEmpty
  · have h0' : l.length = 0 := by simpa [List.isEmpty_iff] using h0
    simp [h0, isOk, h0']
  · have h0' : l.length ≠ 0 := by
      simp [List.isEmpty_iff] at h0
      simpa [List.length_eq_zero] using h0
    by_cases h3 : l.length < 3
    · simp [h0, h3, isOk]
      omega
    · by_cases hg : l.length = 3 ∧ l.head? = l.getLast?
      · rw [if_neg h0, if_neg h3, if_pos hg]
        simp [isOk]
        exact Or.inr (Or.inr hg)
      · rw [if_neg h0, if_neg h3, if_neg hg]
        simp [isOk]
        push_neg
        exact ⟨by omega, by omega, fun h9 hEq => hg ⟨h9, hEq⟩⟩

/-- coords_to_polygon returns normally exactly when the shapely Polygon
constructor accepts the zipped (lon, lat) sequence: nothing after line 75 can
fail in the model. -/
theorem coords_to_polygon_isOk (s : Sentinel) (lat lon : List Rat) (crs : String) :
    isOk (Sentinel.coords_to_polygon s lat lon crs)
      = isOk (shapelyPolygon (lon.zip lat)) := by
  unfold Sentinel.coords_to_polygon
  cases h : shapelyPolygon (lon.zip lat) <;> simp [h, isOk]

/-- C1: the claim says the returned mapping carries
cloudcoverpercentage = cloud_coverage exactly when sensor is "Sentinel-2" and
lacks the key otherwise.  The code instead raises: with sensor 'Sentinel-2'
(and bounds (0, 30)) line 130 evaluates the undefined name
cloud_percent_accept — not the cloud_coverage parameter — and dies with
NameError before any key is set; with any other sensor (here 'Sentinel-3')
line 132 dies with AttributeError on self.api.format_query, so no mapping
(with or without the key) is ever returned. -/
theorem claim_C1_cloudcover_key_raises_name_error :
    Sentinel.initial_keywords 0 (.pysentinel s0) .pynone (.pystr "Sentinel-2")
        .pynone (.pytuple2 (.pyint 0) (.pyint 30)) (.pydict [])
      = .error (.nameError "cloud_percent_accept")
    ∧ Sentinel.initial_keywords 0 (.pysentinel s0) .pynone (.pystr "Sentinel-3")
        .pynone (.pytuple2 (.pyint 0) (.pyint 30)) (.pydict [])
      = .error (.attributeError "format_query") :=
  ⟨rfl, rfl⟩

/-- C2: the claim says a formatted-query length ratio above 1.0 makes
initial_keywords raise a query-too-long ValueError after logging the query.
In the code the provider's length-check facility is never consulted: every
invocation fails before line 134 (NameError on line 130, AttributeError on
line 132 where self.api — the un-called method object — has no format_query,
or TypeError on a non-mapping extra), and the error is never the ValueError
of line 136. -/
theorem claim_C2_query_length_check_unreachable (now : Int)
    (self region sensor data_type cloud_coverage extra : PyValue) :
    ∃ e, Sentinel.initial_keywords now self region sensor data_type cloud_coverage extra
        = .error e ∧ e.isValueErr = false :=
  initial_keywords_always_fails now self region sensor data_type cloud_coverage extra

/-- C3: the claim says the returned region object's geometry ring equals the
input coordinates paired as (lon, lat).  On the square input the function
instead returns the value of GeoDataFrame.to_file — Python None, carrying no
geometry at all; the ring the claim describes exists only in the GeoDataFrame
written to polygon.geojson, whose exterior ring is indeed the input pairing,
closed, in input order. -/
theorem claim_C3_coords_to_polygon_returns_to_file_none :
    Sentinel.coords_to_polygon s0 [0, 0, 1, 1] [0, 1, 1, 0] "epsg:4326"
      = .ok (none,
          { filename := "polygon.geojson"
            driver := "GeoJSON"
            content :=
              { index := [0]
                crs := "epsg:4326"
                geometry := [.polygon [(0, 0), (1, 0), (1, 1), (0, 1), (0, 0)]] } }) :=
  rfl

/-- C4, counterexample: latitude list [0, 0, 1, 1] and longitude list
[0, 1, 1] differ in length, yet coords_to_polygon returns normally — zip
silently truncates to three pairs and no validation error is raised. -/
theorem claim_C4_cex_length_mismatch_accepted :
    ([0, 0, 1, 1] : List Rat).length ≠ ([0, 1, 1] : List Rat).length
    ∧ isOk (Sentinel.coords_to_polygon s0 [0, 0, 1, 1] [0, 1, 1] "epsg:4326") = true :=
  ⟨by decide, rfl⟩

/-- C4, amended: coords_to_polygon performs no validation of its own; the
lists are zipped with truncation to the shorter — the pairing's length is the
minimum of the two lengths (first conjunct) — and the call fails (with an
error of the geometry library, never a length check of this routine) exactly
when the truncated pairing has one or two points (shapely's minimum-count
ValueError) or exactly three points whose first and last coincide (GEOS
rejects the resulting 3-point LinearRing).  An empty pairing yields an empty
polygon with no error, and mismatched lengths alone never raise. -/
theorem claim_C4_amended_no_length_validation (s : Sentinel)
    (lat lon : List Rat) (crs : String) :
    (lon.zip lat).length = min lon.length lat.length
    ∧ (isOk (Sentinel.coords_to_polygon s lat lon crs) = false
        ↔ (lon.zip lat).length = 1 ∨ (lon.zip lat).length = 2
          ∨ ((lon.zip lat).length = 3
              ∧ (lon.zip lat).head? = (lon.zip lat).getLast?)) := by
  refine ⟨List.length_zip lon lat, ?_⟩
  rw [coords_to_polygon_isOk, shapelyPolygon_isOk_false_iff]

/-- C5: the claim speaks of inputs on which initial_keywords returns
normally; there are none.  Every invocation raises before line 138's return —
the keywords dict it builds does carry platformname = sensor and
date = (utcnow() − count_days_buffer, utcnow()), but no caller ever
receives it. -/
theorem claim_C5_initial_keywords_never_returns_normally (now : Int)
    (self region sensor data_type cloud_coverage extra : PyValue) :
    isOk (Sentinel.initial_keywords now self region sensor data_type cloud_coverage extra)
      = false := by
  obtain ⟨e, he, -⟩ :=
    initial_keywords_always_fails now self region sensor data_type cloud_coverage extra
  rw [he]
  rfl

/-- C6: on the claim's own example — extra = {'producttype': 'X'} with
data_type None — the dict literal of lines 121–127 does apply last-write-wins
and maps producttype to 'X' (second conjunct, at the dict-construction
stage), but initial_keywords then raises (NameError on line 130 under the
default sensor, AttributeError on line 132 under any other) and never returns
that mapping (first and third conjuncts). -/
theorem claim_C6_extra_merge_constructed_not_returned :
    Sentinel.initial_keywords 0 (.pysentinel s0) .pynone (.pystr "Sentinel-2")
        .pynone (.pytuple2 (.pyint 0) (.pyint 75))
        (.pydict [("producttype", .pystr "X")])
      = .error (.nameError "cloud_percent_accept")
    ∧ dictGet? ((Sentinel.initial_keywords_base 0 (.pysentinel s0) .pynone
          (.pystr "Sentinel-2") .pynone
          (.pydict [("producttype", .pystr "X")])).toOption.getD [])
        "producttype" = some (.pystr "X")
    ∧ isOk (Sentinel.initial_keywords 0 (.pysentinel s0) .pynone (.pystr "Sentinel-3")
        .pynone (.pytuple2 (.pyint 0) (.pyint 75))
        (.pydict [("producttype", .pystr "X")])) = false :=
  ⟨rfl, rfl, rfl⟩

/-- C7, counterexample: with the out-of-range bounds (200, 300) the composer
does not fail with a validation error — it raises the same
AttributeError('format_query') it raises for in-range bounds, since the
bounds are never inspected. -/
theorem claim_C7_cex_out_of_range_bounds_not_validated :
    Sentinel.initial_keywords 0 (.pysentinel s0) .pynone (.pystr "Sentinel-3")
        .pynone (.pytuple2 (.pyint 200) (.pyint 300)) (.pydict [])
      = .error (.attributeError "format_query")
    ∧ (PyError.attributeError "format_query").isValueErr = false :=
  ⟨rfl, rfl⟩

/-- C7, amended: initial_keywords never validates the cloud-coverage bounds.
The cloud_coverage parameter is read on no reachable path (line 130 names
cloud_percent_accept instead), so the outcome is literally independent of the
bounds, and the failure each call ends in is never a ValueError. -/
theorem claim_C7_amended_bounds_never_read (now : Int)
    (self region sensor data_type cc cc2 extra : PyValue) :
    Sentinel.initial_keywords now self region sensor data_type cc extra
      = Sentinel.initial_keywords now self region sensor data_type cc2 extra
    ∧ ∃ e, Sentinel.initial_keywords now self region sensor data_type cc extra
        = .error e ∧ e.isValueErr = false :=
  ⟨rfl, initial_keywords_always_fails now self region sensor data_type cc extra⟩

/-- C8: the claim says search_products returns the provider mapping unchanged
and logs one info line with the count and titles.  Instead every invocation
raises NameError('lat_list') at line 164 — lat_list and lon_list are bound
nowhere (and the logger of line 170 is unbound too) — so no query is issued,
nothing is logged and nothing is returned. -/
theorem claim_C8_search_products_raises_name_error (self : Sentinel)
    (cloud_coverage data_type extra : PyValue) :
    Sentinel.search_products self cloud_coverage data_type extra
      = .error (.nameError "lat_list")
    ∧ moduleBinds "lat_list" = false
    ∧ moduleBinds "lon_list" = false
    ∧ moduleBinds "logger" = false :=
  ⟨rfl, rfl, rfl, rfl⟩

/-- C9: initial_keywords is a staticmethod that still declares self, so the
line-165 call self.initial_keywords(region, cloud_coverage, extra) binds
region to the self parameter, cloud_coverage to the region parameter and
extra to the sensor parameter (first conjunct, by definition of the call).
Hence when the extra argument is not the string 'Sentinel-2' the Sentinel-2
check — which compares the sensor parameter, i.e. extra — evaluates false
(second conjunct), and in any keywords dict the shifted call could build, the
'area' filter is the cloud-coverage tuple, not a polygon (third conjunct,
stated for a self value that survives the count_days_buffer access). -/
theorem claim_C9_staticmethod_binding_shift (now : Int) (s : Sentinel)
    (region cloud_coverage extra : PyValue)
    (h : extra ≠ PyValue.pystr "Sentinel-2") :
    Sentinel.initial_keywords_call_in_search now region cloud_coverage extra
      = Sentinel.initial_keywords now region cloud_coverage extra
          .pynone (.pytuple2 (.pyint 0) (.pyint 75)) (.pydict [])
    ∧ pyEqStr extra "Sentinel-2" = false
    ∧ dictGet? ((Sentinel.initial_keywords_base now (.pysentinel s) cloud_coverage extra
          .pynone (.pydict [])).toOption.getD []) "area" = some cloud_coverage := by
  refine ⟨rfl, ?_, rfl⟩
  cases extra with
  | pystr a =>
    have ha : a ≠ "Sentinel-2" := fun hEq => h (by rw [hEq])
    simp only [pyEqStr]
    exact beq_eq_false_iff_ne.mpr ha
  | pynone => rfl
  | pyint n => rfl
  | pytuple2 a b => rfl
  | pydatetime t => rfl
  | pytimedelta d => rfl
  | pydict es => rfl
  | pysentinel s2 => rfl
  | pymethod m => rfl

/-- C9, witness: the binding-shift theorem applied at the default call shape
of line 165 — extra = {} (a dict, hence never equal to 'Sentinel-2') and
cloud_coverage = (0, 30). -/
theorem claim_C9_staticmethod_binding_shift_witness :
    (PyValue.pydict [] ≠ PyValue.pystr "Sentinel-2")
    ∧ (Sentinel.initial_keywords_call_in_search 0 PyValue.pynone
          (PyValue.pytuple2 (PyValue.pyint 0) (PyValue.pyint 30)) (PyValue.pydict [])
        = Sentinel.initial_keywords 0 PyValue.pynone
            (PyValue.pytuple2 (PyValue.pyint 0) (PyValue.pyint 30)) (PyValue.pydict [])
            PyValue.pynone (PyValue.pytuple2 (PyValue.pyint 0) (PyValue.pyint 75))
            (PyValue.pydict [])
      ∧ pyEqStr (PyValue.pydict []) "Sentinel-2" = false
      ∧ dictGet? ((Sentinel.initial_keywords_base 0 (PyValue.pysentinel s0)
            (PyValue.pytuple2 (PyValue.pyint 0) (PyValue.pyint 30)) (PyValue.pydict [])
            PyValue.pynone (PyValue.pydict [])).toOption.getD []) "area"
          = some (PyValue.pytuple2 (PyValue.pyint 0) (PyValue.pyint 30))) :=
  ⟨fun hEq => PyValue.noConfusion hEq,
   claim_C9_staticmethod_binding_shift 0 s0 PyValue.pynone
     (PyValue.pytuple2 (PyValue.pyint 0) (PyValue.pyint 30)) (PyValue.pydict [])
     (fun hEq => PyValue.noConfusion hEq)⟩

/-- C10: none of api, coords_to_polygon, initial_keywords, search_products
assigns to an instance attribute — the only assignment in any of them, line
52's api.logger, targets the local SentinelAPI object — so the state each
operation threads through comes back exactly as it went in, with every field
set by __init__ intact. -/
theorem claim_C10_no_instance_attribute_mutation (s : Sentinel)
    (lat lon : List Rat) (crs : String) (now : Int)
    (selfv region sensor data_type cc extra cc2 dt2 ex2 : PyValue) :
    (Sentinel.api_state s).2 = s
    ∧ (Sentinel.coords_to_polygon_state s lat lon crs).2 = s
    ∧ (initial_keywords_state now selfv region sensor data_type cc extra).2 = selfv
    ∧ (Sentinel.search_products_state s cc2 dt2 ex2).2 = s :=
  ⟨rfl, rfl, rfl, rfl⟩

end Sentilogging
